import Mathlib

/-!
Verification of `src/linked_list.py`.

The file defines a `Node` class (fields `data`, `next_node`, both defaulting
to Python `None`), a `LinkedList` class whose constructor sets `head = None`
and `last_node = None`, and a traversal routine `print_LL` that walks the
chain from `head`, accumulating `f"{str(node.data)} => "` per node into
`ll_string`, appends `"None"`, and prints the result; when `head` is `None`
it first prints `None` on its own line.

The module-level script then builds a concrete two-node list and prints it.
-/

/-- A Python object as used by this program: either `None` or a string.
`str()` on these values is modelled by `pyStr`. -/
inductive PyObj where
  | none
  | str (s : String)
deriving DecidableEq, Repr

/-- Python `str()` restricted to the objects above: `str(None) = "None"`,
`str` of a string is itself. -/
def pyStr : PyObj → String
  | PyObj.none => "None"
  | PyObj.str s => s

/-- A Python reference to a node: either `None` or a `Node(data, next_node)`.
Finite acyclic chains are exactly the values of this inductive type, so the
acyclicity precondition of the spec is built into the model. -/
inductive NodeRef where
  | none
  | node (data : PyObj) ( next_node : NodeRef)
deriving DecidableEq, Repr

/-- `Node()` called with no arguments: the Python defaults are
`data=None, next_node=None`. -/
def nodeNoArgs : NodeRef := NodeRef.node PyObj.none NodeRef.none

/-- The `data` field of a node reference (for a non-`None` reference). -/
def NodeRef.data : NodeRef → Option PyObj
  | NodeRef.none => Option.none
  | NodeRef.node d _ => Option.some d

/-- The `next_node` field of a node reference (for a non-`None` reference). -/
def NodeRef.nextOf : NodeRef → Option NodeRef
  | NodeRef.none => Option.none
  | NodeRef.node _ nx => Option.some nx

/-- The sequence of `data` values along the chain from a reference, in
head-to-tail order. -/
def NodeRef.chain : NodeRef → List PyObj
  | NodeRef.none => []
  | NodeRef.node d nx => d :: nx.chain

/-- The `LinkedList` object state: fields `head` and `last_node`. -/
structure LinkedList where
  head : NodeRef
  last_node : NodeRef
deriving DecidableEq, Repr

/-- `LinkedList.__init__`: sets `self.head = None` and `self.last_node = None`. -/
def LinkedList.init : LinkedList := LinkedList.mk NodeRef.none NodeRef.none

/-- The `while node:` loop of `print_LL`: while the current reference is not
`None`, append `f"{str(node.data)} => "` to the accumulator `ll_string` and
advance to `node.next_node`. -/
def llLoop : NodeRef → String → String
  | NodeRef.none, acc => acc
  | NodeRef.node d nx, acc => llLoop nx (acc ++ pyStr d ++ " => ")

/-- The result of calling `print_LL`: the Python return value, the lines
printed to standard output, and the `LinkedList` state after the call. -/
structure RenderResult where
  ret : PyObj
  output : List String
  post : LinkedList
deriving DecidableEq, Repr

/-- `LinkedList.print_LL`: starts with `ll_string = ""`; if `head` is `None`,
first prints `None` on its own line; then runs the `while` loop, appends the
sentinel `"None"`, and prints `ll_string`. The Python function has no
`return` statement, so its value is `None`; it assigns no attribute of
`self` or of any node. -/
def LinkedList.print_LL (ll : LinkedList) : RenderResult :=
  let pre : List String :=
    match ll.head with
    | NodeRef.none => ["None"]
    | NodeRef.node _ _ => []
  let ll_string : String := llLoop ll.head "" ++ "None"
  RenderResult.mk PyObj.none (pre ++ [ll_string]) ll

/-- The string the spec describes for elements `e1, ..., en`:
`str(e1) ++ " => " ++ str(e2) ++ " => " ++ ... ++ str(en) ++ " => " ++ "None"`,
with just `"None"` for the empty sequence. -/
def specRender : List PyObj → String
  | [] => "None"
  | d :: rest => pyStr d ++ " => " ++ specRender rest

/-- The `while` loop of `print_LL` with an explicit step budget: each loop
iteration consumes one unit of fuel; with the list non-exhausted and no fuel
left the traversal cannot finish. -/
def llLoopFuel : Nat → NodeRef → String → Option String
  | _, NodeRef.none, acc => Option.some acc
  | 0, NodeRef.node _ _, _ => Option.none
  | Nat.succ f, NodeRef.node d nx, acc => llLoopFuel f nx (acc ++ pyStr d ++ " => ")

/-- The module-level script: `ll = LinkedList()`. -/
def ll₀ : LinkedList := LinkedList.init

/-- The module-level script: `node2 = Node("2", None)`. -/
def node2 : NodeRef := NodeRef.node (PyObj.str "2") NodeRef.none

/-- The module-level script: `node1 = Node("fir", node2)`. -/
def node1 : NodeRef := NodeRef.node (PyObj.str "fir") node2

/-- The module-level script: `ll.head = node1` (a direct attribute
assignment; `last_node` is untouched). -/
def llMain : LinkedList := LinkedList.mk node1 ll₀.last_node

/-- The states a `LinkedList` can reach in this program: freshly
constructed, after a direct assignment to `head` (as the script does), or
after a call to `print_LL`. No implemented operation assigns `last_node`;
the insertion methods are commented out in the source. -/
inductive Reachable : LinkedList → Prop where
  | init : Reachable LinkedList.init
  | setHead (h : NodeRef) {ll : LinkedList} : Reachable ll →
      Reachable (LinkedList.mk h ll.last_node)
  | render {ll : LinkedList} : Reachable ll → Reachable (ll.print_LL).post

/-! ### Helper lemmas -/

theorem string_append_assoc (a b c : String) : a ++ b ++ c = a ++ (b ++ c) := by
  cases a with
  | mk la =>
    cases b with
    | mk lb =>
      cases c with
      | mk lc => exact congrArg String.mk (List.append_assoc la lb lc)

theorem llLoop_spec (h : NodeRef) : ∀ acc : String,
    llLoop h acc ++ "None" = acc ++ specRender h.chain := by
  induction h with
  | none =>
      intro acc
      simp [llLoop, NodeRef.chain, specRender]
  | node d nx ih =>
      intro acc
      simp only [llLoop, NodeRef.chain, specRender]
      rw [ih (acc ++ pyStr d ++ " => "), string_append_assoc, string_append_assoc,
        string_append_assoc (pyStr d) " => " (specRender nx.chain)]

theorem chain_length_node (d : PyObj) (nx : NodeRef) :
    (NodeRef.node d nx).chain.length = nx.chain.length + 1 := by
  simp [NodeRef.chain]

theorem llLoopFuel_enough (h : NodeRef) : ∀ acc : String,
    llLoopFuel h.chain.length h acc = Option.some (llLoop h acc) := by
  induction h with
  | none =>
      intro acc
      simp [llLoopFuel, llLoop, NodeRef.chain]
  | node d nx ih =>
      intro acc
      rw [chain_length_node]
      simp only [llLoopFuel, llLoop]
      exact ih (acc ++ pyStr d ++ " => ")

theorem llLoopFuel_short (h : NodeRef) : ∀ acc : String, h ≠ NodeRef.none →
    llLoopFuel (h.chain.length - 1) h acc = Option.none := by
  induction h with
  | none =>
      intro acc hne
      exact absurd rfl hne
  | node d nx ih =>
      intro acc _
      rw [chain_length_node]
      simp only [Nat.add_sub_cancel]
      cases hnx : nx with
      | none =>
          simp [llLoopFuel, NodeRef.chain]
      | node d₂ nx₂ =>
          rw [← hnx]
          have hlen : nx.chain.length = (nx.chain.length - 1) + 1 := by
            rw [hnx, chain_length_node]
            simp
          rw [hlen]
          simp only [llLoopFuel]
          exact ih (acc ++ pyStr d ++ " => ") (by rw [hnx]; intro hc; cases hc)

theorem string_empty_append (s : String) : "" ++ s = s := by
  cases s with
  | mk l => rfl

/-! ### Claims -/

/-- C1: for every non-empty list whose chain from `head` holds elements
`e1, ..., en` in that order, `print_LL` emits exactly the single line
`str(e1) ++ " => " ++ ... ++ " => " ++ str(en) ++ " => " ++ "None"`
(`specRender` of the chain), one token per node in chain order from head to
tail, with no reordering; it returns `None` and leaves the list unchanged. -/
theorem c1_render_nonempty (ll : LinkedList) (h : ll.head ≠ NodeRef.none) :
    ll.print_LL = RenderResult.mk PyObj.none [specRender ll.head.chain] ll := by
  simp only [LinkedList.print_LL]
  cases hh : ll.head with
  | none => exact absurd hh h
  | node d nx =>
      rw [List.nil_append, llLoop_spec, string_empty_append]

theorem c1_witness :
    (LinkedList.mk (NodeRef.node (PyObj.str "a") NodeRef.none) NodeRef.none).head
        ≠ NodeRef.none ∧
      (LinkedList.mk (NodeRef.node (PyObj.str "a") NodeRef.none)
          NodeRef.none).print_LL
        = RenderResult.mk PyObj.none ["a => None"]
            (LinkedList.mk (NodeRef.node (PyObj.str "a") NodeRef.none)
              NodeRef.none) :=
  ⟨by decide,
    by
      rw [c1_render_nonempty
        (LinkedList.mk (NodeRef.node (PyObj.str "a") NodeRef.none) NodeRef.none)
        (by decide)]
      rfl⟩

/-- C2: for the empty list (`head` is `None`), `print_LL` first emits a
standalone line for `None` (the empty indicator) and then the sentinel-only
line `"None"` with no preceding `" => "` separator. -/
theorem c2_render_empty (ll : LinkedList) (h : ll.head = NodeRef.none) :
    ll.print_LL = RenderResult.mk PyObj.none ["None", "None"] ll := by
  simp only [LinkedList.print_LL]
  rw [h]
  rfl

theorem c2_witness :
    LinkedList.init.print_LL
      = RenderResult.mk PyObj.none ["None", "None"] LinkedList.init :=
  c2_render_empty LinkedList.init rfl

/-- C3: on a finite acyclic chain the `while` loop of `print_LL` terminates,
visiting each node exactly once: with a step budget equal to the number of
elements of the chain the fuelled loop completes with exactly the value the
unfuelled loop computes, and for a non-empty chain one step fewer does not
suffice. -/
theorem c3_loop_terminates (h : NodeRef) (acc : String) :
    llLoopFuel h.chain.length h acc = Option.some (llLoop h acc) ∧
      (h ≠ NodeRef.none →
        llLoopFuel (h.chain.length - 1) h acc = Option.none) :=
  ⟨llLoopFuel_enough h acc, llLoopFuel_short h acc⟩

theorem c3_witness :
    llLoopFuel node1.chain.length node1 "" = Option.some (llLoop node1 "") ∧
      llLoopFuel (node1.chain.length - 1) node1 "" = Option.none :=
  ⟨(c3_loop_terminates node1 "").1, (c3_loop_terminates node1 "").2 (by decide)⟩

/-- C4: `print_LL` is a pure read: it leaves the state unchanged (in
particular `head` and `last_node`, and every node's `data` and `next_node`,
since the chain is an immutable value here), and calling it twice in
succession with no intervening mutation produces identical output both
times. -/
theorem c4_render_pure (ll : LinkedList) :
    ll.print_LL.post = ll ∧
      (ll.print_LL.post).print_LL.output = ll.print_LL.output ∧
      ll.print_LL.post.head = ll.head ∧
      ll.print_LL.post.last_node = ll.last_node :=
  ⟨rfl, rfl, rfl, rfl⟩

/-- C5: `last_node` is `None` after construction and no implemented
operation (construction, direct head assignment, render) ever assigns to
it, so `last_node = None` holds in every reachable state. -/
theorem c5_last_node_invariant (ll : LinkedList) (h : Reachable ll) :
    ll.last_node = NodeRef.none := by
  induction h with
  | init => rfl
  | setHead hd _ ih => exact ih
  | render _ ih => exact ih

theorem c5_witness : LinkedList.init.last_node = NodeRef.none :=
  c5_last_node_invariant LinkedList.init Reachable.init

/-- C6: a list of exactly one element with data `d` renders as
`str(d) ++ " => None"`, with no `" => "` separator before the single
element, only after it; in particular data `"x"` renders as `"x => None"`. -/
theorem c6_singleton (d : PyObj) (ln : NodeRef) :
    (LinkedList.mk (NodeRef.node d NodeRef.none) ln).print_LL.output
        = [pyStr d ++ " => None"] ∧
      (LinkedList.mk (NodeRef.node (PyObj.str "x") NodeRef.none)
          ln).print_LL.output
        = ["x => None"] := by
  constructor
  · simp only [LinkedList.print_LL, llLoop]
    rw [string_empty_append, List.nil_append, string_append_assoc]
    rfl
  · rfl

/-- C7: for the concrete two-element chain of the module script —
`node2 = Node("2", None)`, `node1 = Node("fir", node2)`, `ll.head = node1`
— `print_LL` emits exactly `"fir => 2 => None"`. -/
theorem c7_script_output : llMain.print_LL.output = ["fir => 2 => None"] :=
  rfl

/-- C8: `LinkedList.__init__` always yields a list with `head` absent
(`None`) and `last_node` absent (`None`); being a total function of no
arguments it has no error conditions. -/
theorem c8_init_empty :
    LinkedList.init.head = NodeRef.none ∧
      LinkedList.init.last_node = NodeRef.none :=
  ⟨rfl, rfl⟩

/-- C9: `print_LL` does not return the rendered string: its Python return
value is `None`, and its only observable effect is the emitted output — the
list state is unchanged. -/
theorem c9_returns_none (ll : LinkedList) :
    ll.print_LL.ret = PyObj.none ∧ ll.print_LL.post = ll :=
  ⟨rfl, rfl⟩

/-- C10: `Node()` with no arguments has `data = None` and
`next_node = None`; since `print_LL` stringifies each node's data with
`str`, a node whose data is `None` renders as the token `"None"`,
indistinguishable from the end-of-chain sentinel: a one-node list with data
`None` renders as `"None => None"`. -/
theorem c10_default_node :
    nodeNoArgs.data = Option.some PyObj.none ∧
      nodeNoArgs.nextOf = Option.some NodeRef.none ∧
      pyStr PyObj.none = "None" ∧
      (LinkedList.mk nodeNoArgs NodeRef.none).print_LL.output
        = ["None => None"] :=
  ⟨rfl, rfl, rfl, rfl⟩
